import Mathlib

/-
Formal model of the streaming HTTP dynamic-resource handlers of src/src/main.c:
the echo handler, the uptime (compute-on-completion) handler, and the LED
(buffer-then-parse) handler with its JSON command parser.

Bytes are modelled as Nat (ASCII codes), buffers as List Nat, and the static
per-resource state (the echo byte counter, the LED accumulator) as explicit
state threaded through each call.  Handler return codes are Int (0 success,
negative errno values as in the C source).
-/

/-- Chunk delivery status, mirroring enum http_data_status
(HTTP_SERVER_DATA_MORE, HTTP_SERVER_DATA_FINAL, HTTP_SERVER_DATA_ABORTED). -/
inductive http_data_status where
  | more_data
  | final
  | aborted
deriving DecidableEq, Repr

/-- A response fragment, mirroring the fields of struct http_response_ctx that
the handlers set: body, body_len, final_chunk. -/
structure http_response_ctx where
  body : List Nat
  body_len : Nat
  final_chunk : Bool
deriving DecidableEq, Repr

/-- One chunk event as delivered by the transport: the status flag and the
payload slice (request_ctx->data with request_ctx->data_len = payload.length). -/
structure chunk_event where
  status : http_data_status
  payload : List Nat
deriving DecidableEq, Repr

/-- errno value ENOMEM = 12; led_handler returns -ENOMEM on capacity overflow. -/
def ENOMEM : Int := 12

/-- echo_handler from src/src/main.c lines 79-113.  State is the static
counter `processed`.  Returns (return code, new processed, emitted fragment):
on ABORTED it resets `processed` and emits nothing; otherwise it adds the data
length to `processed` (resetting it again on FINAL) and echoes the payload
back with final_chunk = (status == FINAL). -/
def echo_handler (processed : Nat) (status : http_data_status) (data : List Nat) :
    Int × Nat × Option http_response_ctx :=
  if status = http_data_status.aborted then
    (0, 0, none)
  else
    let p1 := processed + data.length
    let p2 := if status = http_data_status.final then 0 else p1
    (0, p2, some ⟨data, data.length, decide (status = http_data_status.final)⟩)

/-- uptime_handler from src/src/main.c lines 124-149.  The snprintf call on
k_uptime_get() is external (libc + kernel clock); its outcome is passed in as
`snprintf_ret` (the return code) and `snprintf_buf` (the bytes written to
uptime_buf).  The request payload `data` is ignored by the handler.  Returns
(return code, emitted fragment): nothing happens except on FINAL, where a
negative snprintf return is propagated with no fragment, and otherwise one
final fragment carrying the formatted text is emitted. -/
def uptime_handler (status : http_data_status) (data : List Nat)
    (snprintf_ret : Int) (snprintf_buf : List Nat) : Int × Option http_response_ctx :=
  if status = http_data_status.final then
    if snprintf_ret < 0 then
      (snprintf_ret, none)
    else
      (0, some ⟨snprintf_buf, snprintf_ret.toNat, true⟩)
  else
    (0, none)

/-- The parsed command, mirroring struct led_command. -/
structure led_command where
  led_num : Int
  led_state : Bool
deriving DecidableEq, Repr

/-- An invocation of the actuator collaborator: led_on(leds_dev, n) or
led_off(leds_dev, n). -/
inductive led_action where
  | led_on : Int → led_action
  | led_off : Int → led_action
deriving DecidableEq, Repr

/-- ASCII bytes of the JSON key led_num. -/
def led_num_key : List Nat := [108, 101, 100, 95, 110, 117, 109]

/-- ASCII bytes of the JSON key led_state. -/
def led_state_key : List Nat := [108, 101, 100, 95, 115, 116, 97, 116, 101]

/-- Drop leading JSON whitespace (space, tab, newline, carriage return). -/
def skip_ws : List Nat → List Nat
  | [] => []
  | c :: rest =>
    if c = 32 ∨ c = 9 ∨ c = 10 ∨ c = 13 then skip_ws rest else c :: rest

/-- Read the body of a JSON string after the opening quote, up to the closing
quote (byte 34); returns the content and the remaining input. -/
def parse_string_body : List Nat → Option (List Nat × List Nat)
  | [] => none
  | c :: rest =>
    if c = 34 then
      some ([], rest)
    else
      match parse_string_body rest with
      | some (s, r) => some (c :: s, r)
      | none => none

/-- Read a maximal run of decimal digit bytes (48-57). -/
def parse_digits : List Nat → List Nat × List Nat
  | [] => ([], [])
  | c :: rest =>
    if 48 ≤ c ∧ c ≤ 57 then
      let p := parse_digits rest
      (c :: p.1, p.2)
    else
      ([], c :: rest)

/-- Numeric value of a run of decimal digit bytes. -/
def digits_val (ds : List Nat) : Nat :=
  ds.foldl (fun acc d => acc * 10 + (d - 48)) 0

/-- Read a JSON integer (optional minus sign, then at least one digit). -/
def parse_number : List Nat → Option (Int × List Nat)
  | 45 :: rest =>
    let p := parse_digits rest
    if p.1 = [] then none else some (-(Int.ofNat (digits_val p.1)), p.2)
  | l =>
    let p := parse_digits l
    if p.1 = [] then none else some (Int.ofNat (digits_val p.1), p.2)

/-- Read a JSON boolean literal: the bytes of true or of false. -/
def parse_bool_lit (l : List Nat) : Option (Bool × List Nat) :=
  if l.take 4 = [116, 114, 117, 101] then
    some (true, l.drop 4)
  else if l.take 5 = [102, 97, 108, 115, 101] then
    some (false, l.drop 5)
  else
    none

/-- Modelled from the spec: the member loop of the Zephyr JSON object parser
json_obj_parse applied to the led_command descriptor, which is Zephyr library
code outside this repository.  The spec fixes the wire format: an object with
two named fields, led_num (integer) and led_state (true/false literal); the
parser returns the bitmask of decoded fields (bit 0 = led_num, bit 1 =
led_state, matching descriptor order) and rejects unknown keys and syntax
errors.  `fuel` bounds the recursion by the input length. -/
def parse_members : Nat → List Nat → Nat → led_command →
    Option (Nat × led_command × List Nat)
  | 0, _, _, _ => none
  | Nat.succ fuel, input, mask, cmd =>
    match skip_ws input with
    | 34 :: rest =>
      match parse_string_body rest with
      | none => none
      | some (key, r1) =>
        match skip_ws r1 with
        | 58 :: r2 =>
          let r3 := skip_ws r2
          let step : Option (Nat × led_command × List Nat) :=
            if key = led_num_key then
              match parse_number r3 with
              | some (v, r4) => some (mask ||| 1, { cmd with led_num := v }, r4)
              | none => none
            else if key = led_state_key then
              match parse_bool_lit r3 with
              | some (b, r4) => some (mask ||| 2, { cmd with led_state := b }, r4)
              | none => none
            else
              none
          match step with
          | none => none
          | some (m2, c2, r4) =>
            match skip_ws r4 with
            | 44 :: r5 => parse_members fuel r5 m2 c2
            | 125 :: r5 => some (m2, c2, r5)
            | _ => none
        | _ => none
    | _ => none

/-- Modelled from the spec: json_obj_parse(buf, len, led_command_descr, 2, cmd)
at the call site in parse_led_post — Zephyr library code outside this
repository.  Returns none on a syntax error (the C function returns a negative
errno there), otherwise the bitmask of decoded fields and the decoded command;
undecoded fields keep their initial value. -/
def json_obj_parse (input : List Nat) : Option (Nat × led_command) :=
  match skip_ws input with
  | 123 :: rest =>
    match skip_ws rest with
    | 125 :: r2 =>
      if skip_ws r2 = [] then some (0, ⟨0, false⟩) else none
    | r2 =>
      match parse_members (input.length + 1) r2 0 ⟨0, false⟩ with
      | some (mask, cmd, r3) =>
        if skip_ws r3 = [] then some (mask, cmd) else none
      | none => none
  | _ => none

/-- BIT_MASK(ARRAY_SIZE(led_command_descr)) = BIT_MASK(2) = 3: the expected
json_obj_parse return code meaning both descriptor fields were decoded. -/
def expected_return_code : Nat := 3

/-- parse_led_post from src/src/main.c lines 160-181.  `leds_dev` is whether
DEVICE_DT_GET_ANY(gpio_leds) found a device (leds_dev != NULL).  Returns the
list of actuator invocations performed: empty unless the parse decoded both
fields, in which case exactly one led_on/led_off call according to led_state. -/
def parse_led_post (buf : List Nat) (len : Nat) (leds_dev : Bool) : List led_action :=
  match json_obj_parse (buf.take len) with
  | none => []
  | some (ret, cmd) =>
    if ret ≠ expected_return_code then
      []
    else if leds_dev then
      if cmd.led_state then [led_action.led_on cmd.led_num]
      else [led_action.led_off cmd.led_num]
    else
      []

/-- The LED handler's static state: the 32-byte accumulation buffer
post_payload_buf and the cursor. -/
structure led_accum where
  post_payload_buf : List Nat
  cursor : Nat
deriving DecidableEq, Repr

/-- Initial state of the static accumulator: zero-initialized 32-byte buffer,
cursor 0. -/
def led_accum.init : led_accum := ⟨List.replicate 32 0, 0⟩

/-- memcpy(buf + off, data, data.length) on a list-modelled buffer. -/
def memcpy_at (buf : List Nat) (off : Nat) (data : List Nat) : List Nat :=
  buf.take off ++ data ++ buf.drop (off + data.length)

/-- led_handler from src/src/main.c lines 183-215.  Returns (return code, new
accumulator state, actuator invocations).  Order of checks as in the source:
ABORTED first (reset cursor, return 0), then the capacity check against
sizeof(post_payload_buf) = 32 (reset cursor, return -ENOMEM), then the memcpy
and cursor advance, then on FINAL the parse of buffer[0..cursor) and a cursor
reset. -/
def led_handler (st : led_accum) (status : http_data_status) (data : List Nat)
    (leds_dev : Bool) : Int × led_accum × List led_action :=
  if status = http_data_status.aborted then
    (0, ⟨st.post_payload_buf, 0⟩, [])
  else if data.length + st.cursor > 32 then
    (-ENOMEM, ⟨st.post_payload_buf, 0⟩, [])
  else
    if status = http_data_status.final then
      (0, ⟨memcpy_at st.post_payload_buf st.cursor data, 0⟩,
       parse_led_post (memcpy_at st.post_payload_buf st.cursor data)
         (st.cursor + data.length) leds_dev)
    else
      (0, ⟨memcpy_at st.post_payload_buf st.cursor data, st.cursor + data.length⟩, [])

/-- Run the echo handler over a sequence of chunk events, threading the
`processed` counter and collecting the emitted fragments in order. -/
def echo_run (processed : Nat) : List chunk_event → Nat × List http_response_ctx
  | [] => (processed, [])
  | ev :: rest =>
    ((echo_run (echo_handler processed ev.status ev.payload).2.1 rest).1,
     (echo_handler processed ev.status ev.payload).2.2.toList ++
       (echo_run (echo_handler processed ev.status ev.payload).2.1 rest).2)

/-- Run the LED handler over a sequence of chunk events, threading the
accumulator and collecting the actuator invocations in order. -/
def led_run (st : led_accum) (leds_dev : Bool) :
    List chunk_event → led_accum × List led_action
  | [] => (st, [])
  | ev :: rest =>
    ((led_run (led_handler st ev.status ev.payload leds_dev).2.1 leds_dev rest).1,
     (led_handler st ev.status ev.payload leds_dev).2.2 ++
       (led_run (led_handler st ev.status ev.payload leds_dev).2.1 leds_dev rest).2)

/-- ASCII bytes of the well-formed wire command, a JSON object with led_num 3
and led_state true (30 bytes). -/
def led_cmd_bytes : List Nat :=
  [123, 34, 108, 101, 100, 95, 110, 117, 109, 34, 58, 51, 44,
   34, 108, 101, 100, 95, 115, 116, 97, 116, 101, 34, 58, 116, 114, 117, 101, 125]

/-- ASCII bytes of the malformed wire command, a JSON object with only
led_num 3 and no led_state field (13 bytes). -/
def malformed_cmd_bytes : List Nat :=
  [123, 34, 108, 101, 100, 95, 110, 117, 109, 34, 58, 51, 125]

/-- A concrete MORE_DATA chunk event used to instantiate universally
quantified statements. -/
def sample_more_event : chunk_event := ⟨http_data_status.more_data, [10, 20]⟩

/-- A concrete FINAL chunk event used to instantiate universally quantified
statements. -/
def sample_final_event : chunk_event := ⟨http_data_status.final, [30]⟩

theorem memcpy_at_length (buf d : List Nat) (off : Nat) (h : off + d.length ≤ buf.length) :
    (memcpy_at buf off d).length = buf.length := by
  unfold memcpy_at
  rw [List.length_append, List.length_append, List.length_take, List.length_drop]
  omega

theorem memcpy_at_take (buf d : List Nat) (off : Nat) (h : off ≤ buf.length) :
    (memcpy_at buf off d).take (off + d.length) = buf.take off ++ d := by
  have ht : (buf.take off).length = off := by
    rw [List.length_take]; omega
  have ht2 : (buf.take off ++ d).length = off + d.length := by
    rw [List.length_append, ht]
  unfold memcpy_at
  rw [List.take_append_eq_append_take, List.take_of_length_le (by omega), ht2]
  simp

theorem json_parse_led_cmd : json_obj_parse led_cmd_bytes = some (3, ⟨3, true⟩) := by
  decide

/-- Fragments emitted by the echo handler over a run of MORE_DATA events
followed by one FINAL event: one fragment per event, body the event's payload,
final_chunk false on the MORE_DATA fragments and true on the FINAL one. -/
theorem echo_run_more_final (more : List chunk_event) (processed : Nat)
    (fin : chunk_event)
    (hm : ∀ e ∈ more, e.status = http_data_status.more_data)
    (hf : fin.status = http_data_status.final) :
    (echo_run processed (more ++ [fin])).2 =
      more.map (fun e => ⟨e.payload, e.payload.length, false⟩) ++
        [⟨fin.payload, fin.payload.length, true⟩] := by
  induction more generalizing processed with
  | nil => simp [echo_run, echo_handler, hf]
  | cons e rest ih =>
    have he : e.status = http_data_status.more_data := hm e (by simp)
    have hrest : ∀ x ∈ rest, x.status = http_data_status.more_data :=
      fun x hx => hm x (by simp [hx])
    simp [echo_run, echo_handler, he, ih _ hrest]

/-- C1: Echo identity.  Every chunk event with status MORE_DATA or FINAL makes
the echo handler emit a fragment whose body is exactly the event's payload
(same bytes, same length) and whose final flag equals (status == FINAL); and
over any sequence of MORE_DATA events followed by one FINAL event, the
concatenation of emitted bodies equals the concatenation of the input
payloads, with the final flag true only on the FINAL event's fragment. -/
theorem echo_identity :
    (∀ (processed : Nat) (status : http_data_status) (data : List Nat),
        status ≠ http_data_status.aborted →
        (echo_handler processed status data).2.2 =
          some ⟨data, data.length, decide (status = http_data_status.final)⟩) ∧
    (∀ (processed : Nat) (more : List chunk_event) (fin : chunk_event),
        (∀ e ∈ more, e.status = http_data_status.more_data) →
        fin.status = http_data_status.final →
        ((echo_run processed (more ++ [fin])).2.map http_response_ctx.body).flatten =
            ((more ++ [fin]).map chunk_event.payload).flatten ∧
          (echo_run processed (more ++ [fin])).2.map http_response_ctx.final_chunk =
            List.replicate more.length false ++ [true]) := by
  constructor
  · intro processed status data hs
    cases status <;> simp_all [echo_handler]
  · intro processed more fin hm hf
    rw [echo_run_more_final more processed fin hm hf]
    constructor
    · simp [List.map_append, Function.comp_def]
    · simp [List.map_append, Function.comp_def, List.map_const']

theorem echo_identity_witness :
    ((echo_run 0 ([sample_more_event] ++
          [sample_final_event])).2.map http_response_ctx.body).flatten =
        (([sample_more_event] ++
          [sample_final_event]).map chunk_event.payload).flatten ∧
      (echo_run 0 ([sample_more_event] ++
          [sample_final_event])).2.map http_response_ctx.final_chunk =
        List.replicate [sample_more_event].length false ++ [true] :=
  echo_identity.2 0 [sample_more_event] sample_final_event (by decide) rfl

/-- C9: On ABORTED the echo handler emits no response fragment, resets the
running byte counter `processed` to 0, and returns success; the counter also
resets to 0 on FINAL. -/
theorem echo_aborted_reset :
    (∀ (processed : Nat) (data : List Nat),
        echo_handler processed http_data_status.aborted data = (0, 0, none)) ∧
    (∀ (processed : Nat) (data : List Nat),
        (echo_handler processed http_data_status.final data).2.1 = 0) := by
  constructor <;> intro processed data <;> simp [echo_handler]

/-- C6: Compute-on-completion handler.  On MORE_DATA and ABORTED the uptime
handler emits no fragment and does nothing (the payload is ignored — the
result does not depend on `data` at all); on FINAL with a failed snprintf
(negative return) it propagates the error and emits no fragment; on FINAL
with a successful snprintf it emits exactly one fragment with the formatted
text and final_chunk = true. -/
theorem uptime_handler_contract :
    (∀ (data snbuf : List Nat) (r : Int),
        uptime_handler http_data_status.more_data data r snbuf = (0, none) ∧
        uptime_handler http_data_status.aborted data r snbuf = (0, none)) ∧
    (∀ (data snbuf : List Nat) (r : Int), r < 0 →
        uptime_handler http_data_status.final data r snbuf = (r, none)) ∧
    (∀ (data snbuf : List Nat) (r : Int), 0 ≤ r →
        uptime_handler http_data_status.final data r snbuf =
          (0, some ⟨snbuf, r.toNat, true⟩)) := by
  refine ⟨fun data snbuf r => ⟨by simp [uptime_handler], by simp [uptime_handler]⟩,
    fun data snbuf r hr => ?_, fun data snbuf r hr => ?_⟩
  · simp [uptime_handler, hr]
  · simp [uptime_handler, show ¬r < 0 by omega]

theorem uptime_handler_contract_witness :
    uptime_handler http_data_status.final [] (-1) [] = (-1, none) ∧
    uptime_handler http_data_status.final [] 2 [53, 54] =
      (0, some ⟨[53, 54], 2, true⟩) :=
  ⟨uptime_handler_contract.2.1 [] [] (-1) (by decide),
   uptime_handler_contract.2.2 [] [53, 54] 2 (by decide)⟩

/-- C5: Accumulator reset invariant.  After every invocation of the LED
handler the cursor is at most 32 (and trivially at least 0, being a Nat);
the cursor is 0 after any ABORTED event and after any FINAL event regardless
of decode outcome; and reset is idempotent: a second consecutive ABORTED
event leaves the accumulator in exactly the state the first one produced. -/
theorem led_accum_invariant :
    (∀ (st : led_accum) (status : http_data_status) (data : List Nat) (dev : Bool),
        (led_handler st status data dev).2.1.cursor ≤ 32) ∧
    (∀ (st : led_accum) (data : List Nat) (dev : Bool),
        (led_handler st http_data_status.aborted data dev).2.1.cursor = 0) ∧
    (∀ (st : led_accum) (data : List Nat) (dev : Bool),
        (led_handler st http_data_status.final data dev).2.1.cursor = 0) ∧
    (∀ (st : led_accum) (d1 d2 : List Nat) (dev : Bool),
        (led_handler (led_handler st http_data_status.aborted d1 dev).2.1
            http_data_status.aborted d2 dev).2.1 =
          (led_handler st http_data_status.aborted d1 dev).2.1) := by
  refine ⟨fun st status data dev => ?_, fun st data dev => by simp [led_handler],
    fun st data dev => ?_, fun st d1 d2 dev => by simp [led_handler]⟩
  · unfold led_handler
    split_ifs <;> simp_all <;> omega
  · unfold led_handler
    split_ifs <;> simp_all



/-- A MORE_DATA event within capacity: the payload is copied at the cursor and
the cursor advances. -/
theorem led_handler_more (st : led_accum) (d : List Nat) (dev : Bool)
    (h : d.length + st.cursor ≤ 32) :
    led_handler st http_data_status.more_data d dev =
      (0, ⟨memcpy_at st.post_payload_buf st.cursor d, st.cursor + d.length⟩, []) := by
  unfold led_handler
  rw [if_neg (by decide), if_neg (by omega), if_neg (by decide)]

/-- A FINAL event within capacity: the payload is copied at the cursor, the
accumulated bytes are parsed, and the cursor resets. -/
theorem led_handler_final_ok (st : led_accum) (d : List Nat) (dev : Bool)
    (h : d.length + st.cursor ≤ 32) :
    led_handler st http_data_status.final d dev =
      (0, ⟨memcpy_at st.post_payload_buf st.cursor d, 0⟩,
        parse_led_post (memcpy_at st.post_payload_buf st.cursor d)
          (st.cursor + d.length) dev) := by
  unfold led_handler
  rw [if_neg (by decide), if_neg (by omega), if_pos rfl]

/-- C2: Capacity boundary.  From the initial accumulator (cursor 0), a single
MORE_DATA event of length exactly 32 succeeds and leaves cursor = 32; a
subsequent non-ABORTED event of length at least 1 fails with -ENOMEM, resets
the cursor to 0, leaves the buffer bytes untouched (no partial write), and
performs no actuator invocation. -/
theorem led_capacity_boundary (d1 d2 : List Nat) (status2 : http_data_status)
    (h1 : d1.length = 32) (h2 : 1 ≤ d2.length)
    (hs : status2 ≠ http_data_status.aborted) :
    led_handler led_accum.init http_data_status.more_data d1 true =
      (0, ⟨memcpy_at (List.replicate 32 0) 0 d1, 32⟩, []) ∧
    led_handler ⟨memcpy_at (List.replicate 32 0) 0 d1, 32⟩ status2 d2 true =
      (-ENOMEM, ⟨memcpy_at (List.replicate 32 0) 0 d1, 0⟩, []) := by
  constructor
  · rw [show led_accum.init = ⟨List.replicate 32 0, 0⟩ from rfl,
      led_handler_more _ _ _ (by simp [h1])]
    simp [h1]
  · unfold led_handler
    rw [if_neg hs, if_pos (show d2.length + (32 : Nat) > 32 by omega)]

theorem led_capacity_boundary_witness :
    led_handler led_accum.init http_data_status.more_data (List.replicate 32 7) true =
        (0, ⟨memcpy_at (List.replicate 32 0) 0 (List.replicate 32 7), 32⟩, []) ∧
      led_handler ⟨memcpy_at (List.replicate 32 0) 0 (List.replicate 32 7), 32⟩
          http_data_status.more_data [1] true =
        (-ENOMEM, ⟨memcpy_at (List.replicate 32 0) 0 (List.replicate 32 7), 0⟩, []) :=
  led_capacity_boundary (List.replicate 32 7) [1] http_data_status.more_data
    (by decide) (by decide) (by decide)

/-- C3: Malformed payload.  Feeding the bytes of a JSON object with led_num 3
but no led_state field as one FINAL event makes the decode stop short of both
fields (the parse returns bitmask 1, not the expected 3), the handler performs
zero actuator invocations, resets the cursor to 0, and returns 0. -/
theorem led_malformed_payload :
    json_obj_parse malformed_cmd_bytes = some (1, ⟨3, false⟩) ∧
    (1 : Nat) ≠ expected_return_code ∧
    led_handler led_accum.init http_data_status.final malformed_cmd_bytes true =
      (0, ⟨memcpy_at (List.replicate 32 0) 0 malformed_cmd_bytes, 0⟩, []) := by
  decide

/-- C10: The accumulator capacity is exactly 32 bytes.  For every non-ABORTED
event, the LED handler fails with -ENOMEM precisely when the event's length
plus the cursor exceeds 32, and succeeds (returns 0) whenever it does not. -/
theorem led_capacity_exactly_32 (st : led_accum) (status : http_data_status)
    (data : List Nat) (dev : Bool) (hs : status ≠ http_data_status.aborted) :
    ((led_handler st status data dev).1 = -ENOMEM ↔ data.length + st.cursor > 32) ∧
    (data.length + st.cursor ≤ 32 → (led_handler st status data dev).1 = 0) := by
  unfold led_handler
  rw [if_neg hs]
  split_ifs with hc hf
  · exact ⟨by simp [hc], fun hle => absurd hc (by omega)⟩
  · refine ⟨⟨fun h0 => ?_, fun hgt => absurd hgt hc⟩, fun _ => rfl⟩
    have h1 : (0 : Int) = -ENOMEM := h0
    exact absurd h1 (by decide)
  · refine ⟨⟨fun h0 => ?_, fun hgt => absurd hgt hc⟩, fun _ => rfl⟩
    have h1 : (0 : Int) = -ENOMEM := h0
    exact absurd h1 (by decide)

theorem led_capacity_exactly_32_witness :
    ((led_handler led_accum.init http_data_status.more_data [] true).1 = -ENOMEM ↔
        List.length ([] : List Nat) + led_accum.init.cursor > 32) ∧
      (List.length ([] : List Nat) + led_accum.init.cursor ≤ 32 →
        (led_handler led_accum.init http_data_status.more_data [] true).1 = 0) :=
  led_capacity_exactly_32 led_accum.init http_data_status.more_data [] true (by decide)

/-- C7 counterexample: the ABORTED check precedes the capacity check.  After a
MORE_DATA event fills the buffer (cursor 32), an ABORTED event of length 1 has
cursor + length > 32, yet the handler returns 0, not -ENOMEM, refuting the
claimed step order. -/
theorem led_aborted_capacity_cex :
    [0].length + (led_handler led_accum.init http_data_status.more_data
        (List.replicate 32 7) true).2.1.cursor > 32 ∧
    (led_handler (led_handler led_accum.init http_data_status.more_data
        (List.replicate 32 7) true).2.1 http_data_status.aborted [0] true).1 = 0 ∧
    (led_handler (led_handler led_accum.init http_data_status.more_data
        (List.replicate 32 7) true).2.1 http_data_status.aborted [0] true).1 ≠
      -ENOMEM := by
  decide

/-- C7 amended: the ABORTED check is step 1 and the capacity check applies
only to non-ABORTED events.  An ABORTED event always resets the cursor and
returns 0 regardless of cursor + length; a non-ABORTED event with
cursor + length > 32 fails with -ENOMEM, resets the cursor, writes nothing,
and performs no actuator invocation. -/
theorem led_step_order_amended :
    (∀ (st : led_accum) (data : List Nat) (dev : Bool),
        led_handler st http_data_status.aborted data dev =
          (0, ⟨st.post_payload_buf, 0⟩, [])) ∧
    (∀ (st : led_accum) (status : http_data_status) (data : List Nat) (dev : Bool),
        status ≠ http_data_status.aborted → data.length + st.cursor > 32 →
        led_handler st status data dev = (-ENOMEM, ⟨st.post_payload_buf, 0⟩, [])) := by
  constructor
  · intro st data dev
    simp [led_handler]
  · intro st status data dev hs hc
    unfold led_handler
    rw [if_neg hs, if_pos hc]

theorem led_step_order_amended_witness :
    led_handler ⟨List.replicate 32 0, 32⟩ http_data_status.more_data [5] true =
      (-ENOMEM, ⟨List.replicate 32 0, 0⟩, []) :=
  led_step_order_amended.2 ⟨List.replicate 32 0, 32⟩ http_data_status.more_data [5]
    true (by decide) (by decide)

/-- C8 counterexample: a malformed FINAL payload is not signalled to the
transport.  On the led_num-only object the decode fails (bitmask 1, not 3)
and no actuator runs, yet the LED handler returns 0 — a success — rather than
a non-success value. -/
theorem led_malformed_no_failure_signal :
    json_obj_parse malformed_cmd_bytes = some (1, ⟨3, false⟩) ∧
    (led_handler led_accum.init http_data_status.final malformed_cmd_bytes true).2.2 =
      [] ∧
    (led_handler led_accum.init http_data_status.final malformed_cmd_bytes true).1 =
      0 := by
  decide

/-- C8 amended: CapacityExceeded and EncodingError are returned as failure
codes and reset handler state, but MalformedPayload is only logged: a FINAL
event within capacity always resets the cursor and returns 0 regardless of
decode outcome, so no failure reaches the transport for a malformed payload.
None of the errors is fatal (each handler returns normally). -/
theorem error_signalling_amended :
    (∀ (st : led_accum) (status : http_data_status) (data : List Nat) (dev : Bool),
        status ≠ http_data_status.aborted → data.length + st.cursor > 32 →
        (led_handler st status data dev).1 = -ENOMEM ∧
          (led_handler st status data dev).2.1.cursor = 0) ∧
    (∀ (data snbuf : List Nat) (r : Int), r < 0 →
        uptime_handler http_data_status.final data r snbuf = (r, none)) ∧
    (∀ (st : led_accum) (data : List Nat) (dev : Bool),
        data.length + st.cursor ≤ 32 →
        (led_handler st http_data_status.final data dev).1 = 0 ∧
          (led_handler st http_data_status.final data dev).2.1.cursor = 0) := by
  refine ⟨fun st status data dev hs hc => ?_, fun data snbuf r hr => ?_,
    fun st data dev hle => ?_⟩
  · rw [led_step_order_amended.2 st status data dev hs hc]
    exact ⟨rfl, rfl⟩
  · simp [uptime_handler, hr]
  · rw [led_handler_final_ok st data dev hle]
    exact ⟨rfl, rfl⟩

theorem error_signalling_amended_witness :
    ((led_handler ⟨List.replicate 32 0, 32⟩ http_data_status.more_data [5] true).1 =
        -ENOMEM ∧
      (led_handler ⟨List.replicate 32 0, 32⟩ http_data_status.more_data [5]
          true).2.1.cursor = 0) ∧
    ((led_handler led_accum.init http_data_status.final malformed_cmd_bytes true).1 =
        0 ∧
      (led_handler led_accum.init http_data_status.final malformed_cmd_bytes
          true).2.1.cursor = 0) :=
  ⟨error_signalling_amended.1 ⟨List.replicate 32 0, 32⟩ http_data_status.more_data [5]
      true (by decide) (by decide),
   error_signalling_amended.2.2 led_accum.init malformed_cmd_bytes true (by decide)⟩

/-- C4: Parse round-trip.  The wire encoding of the command with led_num 3 and
led_state true, fed to the LED handler from the initial accumulator either as
one FINAL event or split arbitrarily across two MORE_DATA events followed by
one FINAL event, invokes the actuator exactly once with led_on(3). -/
theorem led_parse_round_trip :
    (led_run led_accum.init true [⟨http_data_status.final, led_cmd_bytes⟩]).2 =
      [led_action.led_on 3] ∧
    ∀ (a b c : List Nat), a ++ b ++ c = led_cmd_bytes →
      (led_run led_accum.init true
          [⟨http_data_status.more_data, a⟩, ⟨http_data_status.more_data, b⟩,
            ⟨http_data_status.final, c⟩]).2 = [led_action.led_on 3] := by
  constructor
  · decide
  · intro a b c h
    have h30 : led_cmd_bytes.length = 30 := by decide
    have hlen : a.length + b.length + c.length = 30 := by
      have h0 := congrArg List.length h
      rw [List.length_append, List.length_append, h30] at h0
      exact h0
    have e1 : led_handler ⟨List.replicate 32 0, 0⟩ http_data_status.more_data a true =
        (0, ⟨memcpy_at (List.replicate 32 0) 0 a, a.length⟩, []) := by
      rw [led_handler_more _ a true (by show a.length + 0 ≤ 32; omega)]
      simp
    have hB1 : (memcpy_at (List.replicate 32 0) 0 a).length = 32 := by
      rw [memcpy_at_length (List.replicate 32 0) a 0 (by simp; omega)]
      simp
    have e2 : led_handler ⟨memcpy_at (List.replicate 32 0) 0 a, a.length⟩
        http_data_status.more_data b true =
        (0, ⟨memcpy_at (memcpy_at (List.replicate 32 0) 0 a) a.length b,
          a.length + b.length⟩, []) :=
      led_handler_more _ b true (by show b.length + a.length ≤ 32; omega)
    have hB2 : (memcpy_at (memcpy_at (List.replicate 32 0) 0 a) a.length b).length =
        32 := by
      rw [memcpy_at_length _ b a.length (by rw [hB1]; omega), hB1]
    have e3 : led_handler ⟨memcpy_at (memcpy_at (List.replicate 32 0) 0 a) a.length b,
        a.length + b.length⟩ http_data_status.final c true =
        (0, ⟨memcpy_at (memcpy_at (memcpy_at (List.replicate 32 0) 0 a) a.length b)
            (a.length + b.length) c, 0⟩,
          parse_led_post (memcpy_at (memcpy_at (memcpy_at (List.replicate 32 0) 0 a)
              a.length b) (a.length + b.length) c)
            (a.length + b.length + c.length) true) :=
      led_handler_final_ok _ c true (by show c.length + (a.length + b.length) ≤ 32; omega)
    have t1 : (memcpy_at (List.replicate 32 0) 0 a).take a.length = a := by
      have t0 := memcpy_at_take (List.replicate 32 0) a 0 (by simp)
      rw [Nat.zero_add] at t0
      simpa using t0
    have t2 : (memcpy_at (memcpy_at (List.replicate 32 0) 0 a) a.length b).take
        (a.length + b.length) = a ++ b := by
      rw [memcpy_at_take _ b a.length (by rw [hB1]; omega), t1]
    have t3 : (memcpy_at (memcpy_at (memcpy_at (List.replicate 32 0) 0 a) a.length b)
        (a.length + b.length) c).take (a.length + b.length + c.length) =
        led_cmd_bytes := by
      rw [memcpy_at_take _ c (a.length + b.length) (by rw [hB2]; omega), t2]
      exact h
    have hparse : parse_led_post (memcpy_at (memcpy_at (memcpy_at (List.replicate 32 0)
        0 a) a.length b) (a.length + b.length) c) (a.length + b.length + c.length)
        true = [led_action.led_on 3] := by
      unfold parse_led_post
      rw [t3, json_parse_led_cmd]
      decide
    have hrun : (led_run led_accum.init true
        [⟨http_data_status.more_data, a⟩, ⟨http_data_status.more_data, b⟩,
          ⟨http_data_status.final, c⟩]).2 =
        (led_handler led_accum.init http_data_status.more_data a true).2.2 ++
        ((led_handler (led_handler led_accum.init http_data_status.more_data a
            true).2.1 http_data_status.more_data b true).2.2 ++
          ((led_handler (led_handler (led_handler led_accum.init
              http_data_status.more_data a true).2.1 http_data_status.more_data b
              true).2.1 http_data_status.final c true).2.2 ++ [])) := rfl
    rw [hrun, show led_accum.init = (⟨List.replicate 32 0, 0⟩ : led_accum) from rfl]
    simp only [e1, e2, e3, List.append_nil, List.nil_append]
    exact hparse

theorem led_parse_round_trip_witness :
    (led_run led_accum.init true
        [⟨http_data_status.more_data, [123, 34, 108, 101, 100, 95, 110, 117, 109, 34]⟩,
          ⟨http_data_status.more_data, [58, 51, 44, 34, 108, 101, 100, 95, 115, 116]⟩,
          ⟨http_data_status.final,
            [97, 116, 101, 34, 58, 116, 114, 117, 101, 125]⟩]).2 =
      [led_action.led_on 3] :=
  led_parse_round_trip.2 [123, 34, 108, 101, 100, 95, 110, 117, 109, 34]
    [58, 51, 44, 34, 108, 101, 100, 95, 115, 116]
    [97, 116, 101, 34, 58, 116, 114, 117, 101, 125] (by decide)
